import Mathlib

/-!
Verification of the real-time messaging layer of the job-board server
(WebSocketManager, its storage collaborator, and the token-issuing auth
middleware).  The definitions below are a shallow embedding of the
TypeScript source: socket pushes, close calls and storage writes are
reified as an ordered list of effects, and the asynchronous handlers
become pure functions from the relevant state to (new state, effects).
-/

namespace InternshipCompany

/-- readyState values of a ws WebSocket. -/
inductive ReadyState
  | CONNECTING
  | OPEN
  | CLOSING
  | CLOSED
deriving DecidableEq, Repr

/-- A row of the messages table (shared/schema.ts): id serial primary key,
senderId, receiverId, content, read (default false), createdAt (defaultNow).
Timestamps are modelled as Nat. -/
structure Message where
  id : Nat
  senderId : Nat
  receiverId : Nat
  content : String
  read : Bool
  createdAt : Nat
deriving DecidableEq, Repr

/-- InsertMessage (shared/schema.ts): the insert schema omits id, read and
createdAt, so a caller of createMessage supplies only these three fields. -/
structure InsertMessage where
  senderId : Nat
  receiverId : Nat
  content : String
deriving DecidableEq, Repr

/-- The durable message store behind DatabaseStorage: the rows of the
messages table plus the next serial id. -/
structure MessageStore where
  rows : List Message
  nextId : Nat
deriving DecidableEq, Repr

/-- DatabaseStorage.createMessage: inserts the row; the database fills
read with its default false and createdAt with the current time, and
returns the inserted row. -/
def createMessage (st : MessageStore) (now : Nat) (m : InsertMessage) :
    Message × MessageStore :=
  let newMessage : Message :=
    { id := st.nextId, senderId := m.senderId, receiverId := m.receiverId,
      content := m.content, read := false, createdAt := now }
  (newMessage, { rows := st.rows ++ [newMessage], nextId := st.nextId + 1 })

/-- One entry of WebSocketManager.clients: a (userId, socket) pair.
Sockets are identified by a Nat handle. -/
structure ConnectedClient where
  userId : Nat
  socketId : Nat
deriving DecidableEq, Repr

/-- The WebSocketManager state visible to sendToUser: the clients list
and each socket's current readyState. -/
structure WSState where
  clients : List ConnectedClient
  readyState : Nat → ReadyState

/-- Rows of the invitations table used by the core (only the fields the
notification path reads). -/
structure Invitation where
  id : Nat
  jobId : Nat
  candidateId : Nat
deriving DecidableEq, Repr

/-- Rows of the jobs table used by the core. -/
structure Job where
  id : Nat
  companyId : Nat
deriving DecidableEq, Repr

/-- Rows of the companies table used by the core. -/
structure Company where
  id : Nat
deriving DecidableEq, Repr

/-- Rows of the candidateProfiles table used by the core. -/
structure CandidateProfile where
  id : Nat
  userId : Nat
deriving DecidableEq, Repr

/-- A server-to-client frame, one JSON object per text frame. -/
inductive OutFrame
  | message (m : Message)
  | messageSent (messageId : Nat)
  | error (msg : String)
  | newInvitation (invitation : Invitation) (job : Job) (company : Company)
deriving DecidableEq, Repr

/-- An observable effect of a handler, in program order: the awaited
storage.createMessage call, a socket.send of a frame, or a socket.close. -/
inductive Effect
  | createMessageCall (m : InsertMessage)
  | send (socketId : Nat) (frame : OutFrame)
  | close (socketId : Nat) (code : Nat) (reason : String)
deriving DecidableEq, Repr

def Effect.isSend : Effect → Bool
  | .send _ _ => true
  | _ => false

def Effect.isCreateMessageCall : Effect → Bool
  | .createMessageCall _ => true
  | _ => false

def Effect.isClose : Effect → Bool
  | .close _ _ _ => true
  | _ => false

def Effect.isMessageFrame : Effect → Bool
  | .send _ (.message _) => true
  | _ => false

def Effect.isErrorFrame : Effect → Bool
  | .send _ (.error _) => true
  | _ => false

/-- WebSocketManager.sendToUser: filter the clients list by userId; if no
entry exists return false; otherwise send the frame to each filtered
client whose socket readyState is OPEN, and return whether at least one
send happened. -/
def sendToUser (st : WSState) (userId : Nat) (frame : OutFrame) :
    Bool × List Effect :=
  let userClients := st.clients.filter (fun c => c.userId == userId)
  if userClients.length = 0 then
    (false, [])
  else
    (userClients.any (fun c => st.readyState c.socketId == ReadyState.OPEN),
     userClients.filterMap (fun c =>
       if st.readyState c.socketId == ReadyState.OPEN then
         some (Effect.send c.socketId frame)
       else none))

/-- An inbound text frame as seen by the socket message handler: either
JSON.parse throws, or it yields an object with a type field and possibly
a receiverId and a content field. -/
inductive Inbound
  | invalidJson
  | parsed (msgType : String) (receiverId : Option Nat) (content : Option String)
deriving DecidableEq, Repr

/-- JavaScript truthiness of the numeric receiverId field: absent or 0 is
falsy. -/
def truthyNum : Option Nat → Bool
  | none => false
  | some n => n != 0

/-- JavaScript truthiness of the string content field: absent or empty is
falsy. -/
def truthyStr : Option String → Bool
  | none => false
  | some s => s != ""

/-- The socket message handler in WebSocketManager (the async callback
registered on each authenticated socket).  userId is the identity bound
at connection time.  storageRejects models the awaited
storage.createMessage call rejecting, which lands in the same catch block
as a JSON.parse failure.  Returns the new store and the ordered effects. -/
def handleMessage (st : WSState) (store : MessageStore) (now : Nat)
    (userId : Nat) (inbound : Inbound) (storageRejects : Bool) :
    MessageStore × List Effect :=
  match inbound with
  | .invalidJson =>
      (store, (sendToUser st userId (OutFrame.error "Failed to process message")).2)
  | .parsed msgType receiverId content =>
      if msgType == "message" && truthyNum receiverId && truthyStr content then
        let im : InsertMessage :=
          { senderId := userId, receiverId := receiverId.getD 0,
            content := content.getD "" }
        if storageRejects then
          (store, Effect.createMessageCall im ::
            (sendToUser st userId (OutFrame.error "Failed to process message")).2)
        else
          let res := createMessage store now im
          (res.2,
            Effect.createMessageCall im ::
              ((sendToUser st (receiverId.getD 0) (OutFrame.message res.1)).2 ++
               (sendToUser st userId (OutFrame.messageSent res.1.id)).2))
      else
        (store, [])

/-- Outcome of extracting and verifying the token query parameter at
connection time: absent, jwt.verify throws (malformed, expired or
tampered), or it yields a userId. -/
inductive TokenCheck
  | missing
  | invalid
  | valid (userId : Nat)
deriving DecidableEq, Repr

/-- The wss connection callback in WebSocketManager: no token closes the
socket with 1008; a verify failure is caught and closes with 1008; a
verified token pushes the (userId, socket) pair onto the clients list. -/
def handleConnection (st : WSState) (socketId : Nat) (tok : TokenCheck) :
    WSState × List Effect :=
  match tok with
  | .missing => (st, [Effect.close socketId 1008 "Authentication required"])
  | .invalid => (st, [Effect.close socketId 1008 "Invalid authentication token"])
  | .valid userId =>
      ({ st with clients := st.clients ++ [{ userId := userId, socketId := socketId }] },
       [])

/-- The socket close callback: filters out of the clients list exactly the
entries whose userId and socket both match the pair captured at
connection time. -/
def handleClose (clients : List ConnectedClient) (userId socketId : Nat) :
    List ConnectedClient :=
  clients.filter (fun c => !(c.userId == userId && c.socketId == socketId))

/-- Result of an awaited storage lookup: the promise resolves with a row
or with undefined, or it rejects. -/
inductive StorageResult (α : Type)
  | ok (val : Option α)
  | err
deriving DecidableEq, Repr

/-- The read-only storage lookups the notification path awaits. -/
structure Storage where
  getInvitation : Nat → StorageResult Invitation
  getJob : Nat → StorageResult Job
  getCompany : Nat → StorageResult Company
  getCandidateProfile : Nat → StorageResult CandidateProfile

/-- WebSocketManager.sendInvitationNotification: reads the invitation,
its job, the job's company and the invitation's candidate profile; any
missing row returns false, any rejected lookup is caught and returns
false; otherwise pushes a new_invitation frame to the candidate's user
via sendToUser and returns its result. -/
def sendInvitationNotification (st : WSState) (db : Storage)
    (invitationId : Nat) : Bool × List Effect :=
  match db.getInvitation invitationId with
  | .err => (false, [])
  | .ok none => (false, [])
  | .ok (some invitation) =>
    match db.getJob invitation.jobId with
    | .err => (false, [])
    | .ok none => (false, [])
    | .ok (some job) =>
      match db.getCompany job.companyId with
      | .err => (false, [])
      | .ok none => (false, [])
      | .ok (some company) =>
        match db.getCandidateProfile invitation.candidateId with
        | .err => (false, [])
        | .ok none => (false, [])
        | .ok (some candidateProfile) =>
          sendToUser st candidateProfile.userId
            (OutFrame.newInvitation invitation job company)

/-- The claim shape signed into every JWT by the auth middleware. -/
structure JwtPayload where
  userId : Nat
  email : String
  role : String
deriving DecidableEq, Repr

/-- A signed token together with the expiresIn option it was signed
with, in seconds. -/
structure SignedToken where
  payload : JwtPayload
  expiresInSeconds : Nat
deriving DecidableEq, Repr

/-- The expiresIn option hard-coded in createToken
(server/middleware/auth.ts): the string 7d, i.e. seven days in seconds. -/
def createTokenExpiresInSeconds : Nat := 7 * 24 * 60 * 60

/-- createToken (server/middleware/auth.ts): jwt.sign(payload, JWT_SECRET,
with expiresIn 7d). -/
def createToken (payload : JwtPayload) : SignedToken :=
  { payload := payload, expiresInSeconds := createTokenExpiresInSeconds }

/-- The token minted by POST /api/auth/login (and /register): a plain
createToken call on the user's claims. -/
def loginToken (p : JwtPayload) : SignedToken := createToken p

/-- The token minted by GET /api/auth/ws-token for the socket upgrade: the
route calls the very same createToken on the same claims. -/
def wsToken (p : JwtPayload) : SignedToken := createToken p

/-! ### Connection lifecycle state machine

The per-socket state machine of the spec, driven by the code paths of the
connection callback: an upgrade request starts authenticating; jwt.verify
success pushes the (userId, socket) pair and the socket is open; verify
failure (or a missing token) closes the socket without registering it; a
close event on an open socket runs handleClose for the pair captured at
registration time. -/

/-- Lifecycle phase of one socket. -/
inductive SockPhase
  | Connecting
  | Authenticating
  | Open
  | Closed
deriving DecidableEq, Repr

/-- Global lifecycle state: each socket handle's phase plus the clients
registry. -/
structure LifeState where
  phase : Nat → SockPhase
  registry : List ConnectedClient

/-- Pointwise update of the phase map. -/
def setPhase (f : Nat → SockPhase) (sid : Nat) (p : SockPhase) : Nat → SockPhase :=
  fun n => if n = sid then p else f n

/-- One step of the connection lifecycle, as implemented by the
connection and close callbacks of WebSocketManager. -/
inductive Step : LifeState → LifeState → Prop
  | upgrade (s : LifeState) (sid : Nat) :
      s.phase sid = SockPhase.Connecting →
      Step s { phase := setPhase s.phase sid SockPhase.Authenticating,
               registry := s.registry }
  | authOk (s : LifeState) (sid uid : Nat) :
      s.phase sid = SockPhase.Authenticating →
      Step s { phase := setPhase s.phase sid SockPhase.Open,
               registry := s.registry ++ [{ userId := uid, socketId := sid }] }
  | authFail (s : LifeState) (sid : Nat) :
      s.phase sid = SockPhase.Authenticating →
      Step s { phase := setPhase s.phase sid SockPhase.Closed,
               registry := s.registry }
  | closeEvt (s : LifeState) (sid uid : Nat) :
      s.phase sid = SockPhase.Open →
      ConnectedClient.mk uid sid ∈ s.registry →
      Step s { phase := setPhase s.phase sid SockPhase.Closed,
               registry := handleClose s.registry uid sid }

/-- The initial lifecycle state: no socket has connected, the registry is
empty. -/
def LifeState.start : LifeState :=
  { phase := fun _ => SockPhase.Connecting, registry := [] }

/-- A lifecycle state reachable from the initial state. -/
def Reachable (s : LifeState) : Prop :=
  Relation.ReflTransGen Step LifeState.start s

/-- The registry invariant: every registered socket is Open, every Open
socket is registered, and a socket handle appears in at most one entry. -/
def RegistryInv (s : LifeState) : Prop :=
  (∀ c ∈ s.registry, s.phase c.socketId = SockPhase.Open) ∧
  (∀ sid, s.phase sid = SockPhase.Open → ∃ c ∈ s.registry, c.socketId = sid) ∧
  (∀ c ∈ s.registry, ∀ c' ∈ s.registry, c.socketId = c'.socketId → c = c')

/-! ### Helper lemmas about sendToUser -/

/-- filterMap of a guarded some is a filter followed by a map. -/
theorem filterMap_guard {α β : Type} (p : α → Bool) (f : α → β) (l : List α) :
    l.filterMap (fun a => if p a then some (f a) else none) = (l.filter p).map f := by
  induction l with
  | nil => rfl
  | cons a t ih => cases hp : p a <;> simp [List.filterMap_cons, List.filter_cons, hp, ih]

/-- The registry entries of a user whose socket is OPEN, in registry order. -/
def openClientsOf (st : WSState) (userId : Nat) : List ConnectedClient :=
  st.clients.filter (fun c =>
    st.readyState c.socketId == ReadyState.OPEN && c.userId == userId)

theorem openClientsOf_eq (st : WSState) (userId : Nat) :
    openClientsOf st userId =
      (st.clients.filter (fun c => c.userId == userId)).filter
        (fun c => st.readyState c.socketId == ReadyState.OPEN) :=
  (List.filter_filter _ _).symm

/-- The effects of sendToUser are exactly one send per OPEN registry entry
of the target user, in registry order. -/
theorem sendToUser_effects (st : WSState) (userId : Nat) (frame : OutFrame) :
    (sendToUser st userId frame).2 =
      (openClientsOf st userId).map (fun c => Effect.send c.socketId frame) := by
  rw [openClientsOf_eq]
  simp only [sendToUser]
  by_cases h : (st.clients.filter (fun c => c.userId == userId)).length = 0
  · rw [if_pos h]
    rw [List.length_eq_zero] at h
    rw [h]
    rfl
  · rw [if_neg h]
    exact filterMap_guard _ _ _

/-- A user's OPEN registry entry receives the frame pushed by sendToUser. -/
theorem send_mem_sendToUser (st : WSState) (userId : Nat) (frame : OutFrame)
    (c : ConnectedClient) (hc : c ∈ st.clients) (hu : c.userId = userId)
    (ho : st.readyState c.socketId = ReadyState.OPEN) :
    Effect.send c.socketId frame ∈ (sendToUser st userId frame).2 := by
  rw [sendToUser_effects]
  exact List.mem_map_of_mem _ (List.mem_filter.mpr ⟨hc, by simp [ho, hu]⟩)

/-- sendToUser returns true exactly when some OPEN entry of the target
user exists, i.e. when at least one send happens. -/
theorem sendToUser_sent_iff (st : WSState) (userId : Nat) (frame : OutFrame) :
    (sendToUser st userId frame).1 = true ↔ openClientsOf st userId ≠ [] := by
  simp only [sendToUser]
  by_cases h : (st.clients.filter (fun c => c.userId == userId)).length = 0
  · rw [if_pos h]
    rw [List.length_eq_zero] at h
    rw [openClientsOf_eq, h]
    simp
  · rw [if_neg h]
    rw [openClientsOf_eq]
    simp only [List.any_eq_true, ne_eq, ← List.length_eq_zero]
    constructor
    · rintro ⟨c, hc, hopen⟩
      intro hlen
      rw [List.length_eq_zero, List.filter_eq_nil_iff] at hlen
      exact hlen c hc hopen
    · intro hne
      have : ∃ c, c ∈ (st.clients.filter (fun c => c.userId == userId)).filter
          (fun c => st.readyState c.socketId == ReadyState.OPEN) := by
        rcases List.exists_mem_of_length_pos (Nat.pos_of_ne_zero (by
          intro h0
          exact hne (by rw [h0]))) with ⟨c, hc⟩
        exact ⟨c, hc⟩
      rcases this with ⟨c, hc⟩
      rcases List.mem_filter.mp hc with ⟨hc1, hc2⟩
      exact ⟨c, hc1, hc2⟩

/-! ### The registry invariant is inductive -/

theorem registryInv_start : RegistryInv LifeState.start := by
  refine ⟨?_, ?_, ?_⟩
  · intro c hc
    exact absurd hc (List.not_mem_nil c)
  · intro sid h
    simp [LifeState.start] at h
  · intro c hc
    exact absurd hc (List.not_mem_nil c)

theorem registryInv_step {s s' : LifeState} (hs : Step s s')
    (hinv : RegistryInv s) : RegistryInv s' := by
  obtain ⟨h1, h2, h3⟩ := hinv
  cases hs with
  | upgrade sid hph =>
      have hnot : ∀ c ∈ s.registry, c.socketId ≠ sid := fun c hc he => by
        have hop := h1 c hc
        rw [he, hph] at hop
        exact absurd hop (by simp)
      refine ⟨?_, ?_, h3⟩
      · intro c hc
        have hne := hnot c hc
        have hop := h1 c hc
        simpa [setPhase, hne] using hop
      · intro x hx
        by_cases hxs : x = sid
        · subst hxs
          simp [setPhase] at hx
        · simp only [setPhase] at hx
          rw [if_neg hxs] at hx
          exact h2 x hx
  | authOk sid uid hph =>
      have hnot : ∀ c ∈ s.registry, c.socketId ≠ sid := fun c hc he => by
        have hop := h1 c hc
        rw [he, hph] at hop
        exact absurd hop (by simp)
      refine ⟨?_, ?_, ?_⟩
      · intro c hc
        rcases List.mem_append.mp hc with hcl | hcl
        · have hne := hnot c hcl
          have hop := h1 c hcl
          simpa [setPhase, hne] using hop
        · have hce := List.mem_singleton.mp hcl
          subst hce
          simp [setPhase]
      · intro x hx
        by_cases hxs : x = sid
        · subst hxs
          exact ⟨⟨uid, x⟩, List.mem_append.mpr (Or.inr (List.mem_singleton.mpr rfl)), rfl⟩
        · simp only [setPhase] at hx
          rw [if_neg hxs] at hx
          rcases h2 x hx with ⟨c, hc, hcs⟩
          exact ⟨c, List.mem_append.mpr (Or.inl hc), hcs⟩
      · intro c hc c' hc'
        rcases List.mem_append.mp hc with hcl | hcl <;>
          rcases List.mem_append.mp hc' with hcr | hcr
        · exact h3 c hcl c' hcr
        · have hce := List.mem_singleton.mp hcr
          subst hce
          intro hss
          exact absurd hss (hnot c hcl)
        · have hce := List.mem_singleton.mp hcl
          subst hce
          intro hss
          exact absurd hss.symm (hnot c' hcr)
        · have hce := List.mem_singleton.mp hcl
          have hce' := List.mem_singleton.mp hcr
          subst hce
          subst hce'
          intro _
          rfl
  | authFail sid hph =>
      have hnot : ∀ c ∈ s.registry, c.socketId ≠ sid := fun c hc he => by
        have hop := h1 c hc
        rw [he, hph] at hop
        exact absurd hop (by simp)
      refine ⟨?_, ?_, h3⟩
      · intro c hc
        have hne := hnot c hc
        have hop := h1 c hc
        simpa [setPhase, hne] using hop
      · intro x hx
        by_cases hxs : x = sid
        · subst hxs
          simp [setPhase] at hx
        · simp only [setPhase] at hx
          rw [if_neg hxs] at hx
          exact h2 x hx
  | closeEvt sid uid hph hmem =>
      refine ⟨?_, ?_, ?_⟩
      · intro c hc
        rcases List.mem_filter.mp hc with ⟨hcr, hpred⟩
        have hop := h1 c hcr
        have hne : c.socketId ≠ sid := by
          intro he
          have hceq : c = ⟨uid, sid⟩ := h3 c hcr ⟨uid, sid⟩ hmem he
          rw [hceq] at hpred
          simp at hpred
        simpa [setPhase, hne] using hop
      · intro x hx
        by_cases hxs : x = sid
        · subst hxs
          simp [setPhase] at hx
        · simp only [setPhase] at hx
          rw [if_neg hxs] at hx
          rcases h2 x hx with ⟨c, hc, hcs⟩
          refine ⟨c, List.mem_filter.mpr ⟨hc, ?_⟩, hcs⟩
          have hfalse : (c.socketId == sid) = false := by
            rw [hcs]
            simp [hxs]
          simp [hfalse]
      · intro c hc c' hc'
        exact h3 c (List.mem_filter.mp hc).1 c' (List.mem_filter.mp hc').1


theorem registryInv_reachable {s : LifeState} (h : Reachable s) : RegistryInv s := by
  induction h with
  | refl => exact registryInv_start
  | tail _ hstep ih => exact registryInv_step hstep ih

/-! ### Unfolding lemmas for the message handler -/

/-- On a valid chat frame with the storage call succeeding, the handler
persists via createMessage and then pushes to the recipient and the
sender, in that order. -/
theorem handleMessage_valid (st : WSState) (store : MessageStore)
    (now userId : Nat) (receiverId : Option Nat) (content : Option String)
    (hr : truthyNum receiverId = true) (hc : truthyStr content = true) :
    handleMessage st store now userId (Inbound.parsed "message" receiverId content) false =
      ((createMessage store now ⟨userId, receiverId.getD 0, content.getD ""⟩).2,
        Effect.createMessageCall ⟨userId, receiverId.getD 0, content.getD ""⟩ ::
          ((sendToUser st (receiverId.getD 0)
              (OutFrame.message
                (createMessage store now ⟨userId, receiverId.getD 0, content.getD ""⟩).1)).2 ++
           (sendToUser st userId
              (OutFrame.messageSent
                (createMessage store now
                  ⟨userId, receiverId.getD 0, content.getD ""⟩).1.id)).2)) := by
  simp [handleMessage, hr, hc]

/-- On a valid chat frame whose persistence call rejects, the handler falls
into the catch block: the store is unchanged and the error frame goes to
the sender via sendToUser. -/
theorem handleMessage_reject (st : WSState) (store : MessageStore)
    (now userId : Nat) (receiverId : Option Nat) (content : Option String)
    (hr : truthyNum receiverId = true) (hc : truthyStr content = true) :
    handleMessage st store now userId (Inbound.parsed "message" receiverId content) true =
      (store, Effect.createMessageCall ⟨userId, receiverId.getD 0, content.getD ""⟩ ::
        (sendToUser st userId (OutFrame.error "Failed to process message")).2) := by
  simp [handleMessage, hr, hc]

/-- A frame that fails the type/receiverId/content guard is dropped with no
effect at all. -/
theorem handleMessage_guard_false (st : WSState) (store : MessageStore)
    (now userId : Nat) (msgType : String) (receiverId : Option Nat)
    (content : Option String)
    (h : (msgType == "message" && truthyNum receiverId && truthyStr content) = false) :
    handleMessage st store now userId (Inbound.parsed msgType receiverId content) false
      = (store, []) := by
  simp [handleMessage, h]

/-! ### Demo states used by the concrete witnesses -/

/-- A demo manager state: user 1 owns OPEN sockets 11 and 12, user 2 owns
OPEN socket 10. -/
def demoState : WSState :=
  { clients := [⟨1, 11⟩, ⟨2, 10⟩, ⟨1, 12⟩], readyState := fun _ => ReadyState.OPEN }

/-- An empty demo message store whose next serial id is 1. -/
def demoStore : MessageStore := { rows := [], nextId := 1 }

/-! ### C2 -/

/-- C2: in every reachable state of the connection-lifecycle step relation
(successful authentication registers the (userId, socket) pair, a close or
error event removes it), no socket is simultaneously Open and absent from
the registry, and no socket is simultaneously Closed and present in the
registry. -/
theorem lifecycle_open_closed_registry_pairing (s : LifeState) (h : Reachable s) :
    (∀ sid, s.phase sid = SockPhase.Open → ∃ c ∈ s.registry, c.socketId = sid) ∧
    (∀ c ∈ s.registry, s.phase c.socketId ≠ SockPhase.Closed) := by
  obtain ⟨h1, h2, _⟩ := registryInv_reachable h
  refine ⟨h2, fun c hc => ?_⟩
  rw [h1 c hc]
  simp

/-- The lifecycle state after socket 0 upgrades and authenticates as
user 7. -/
def lifeDemo : LifeState :=
  { phase := setPhase (setPhase LifeState.start.phase 0 SockPhase.Authenticating) 0
      SockPhase.Open,
    registry := [⟨7, 0⟩] }

/-- Witness for C2 at a concrete reachable state. -/
theorem lifecycle_pairing_witness :
    (∀ sid, lifeDemo.phase sid = SockPhase.Open →
      ∃ c ∈ lifeDemo.registry, c.socketId = sid) ∧
    (∀ c ∈ lifeDemo.registry, lifeDemo.phase c.socketId ≠ SockPhase.Closed) := by
  have hreach : Reachable lifeDemo :=
    Relation.ReflTransGen.tail
      (Relation.ReflTransGen.tail Relation.ReflTransGen.refl
        (Step.upgrade LifeState.start 0 rfl))
      (Step.authOk _ 0 7 rfl)
  exact lifecycle_open_closed_registry_pairing lifeDemo hreach

/-! ### C4 -/

/-- C4: a socket upgrade whose token is absent or fails verification
(malformed, expired or tampered) closes the socket with code 1008 as its
only effect, sends no frames, and leaves the manager state, in particular
the clients registry, unchanged. -/
theorem failed_upgrade_closes_1008 (st : WSState) (socketId : Nat)
    (tok : TokenCheck)
    (h : tok = TokenCheck.missing ∨ tok = TokenCheck.invalid) :
    (handleConnection st socketId tok).1 = st ∧
    (∃ reason, (handleConnection st socketId tok).2
      = [Effect.close socketId 1008 reason]) ∧
    ∀ e ∈ (handleConnection st socketId tok).2, e.isSend = false := by
  rcases h with h | h <;> subst h <;>
    refine ⟨rfl, ⟨_, rfl⟩, ?_⟩ <;>
    · intro e he
      have he' := List.mem_singleton.mp he
      subst he'
      rfl

/-- Witness for C4: a missing token on socket 99 in the demo state. -/
theorem failed_upgrade_witness :
    (handleConnection demoState 99 TokenCheck.missing).1 = demoState ∧
    (∃ reason, (handleConnection demoState 99 TokenCheck.missing).2
      = [Effect.close 99 1008 reason]) ∧
    ∀ e ∈ (handleConnection demoState 99 TokenCheck.missing).2, e.isSend = false :=
  failed_upgrade_closes_1008 demoState 99 TokenCheck.missing (Or.inl rfl)

/-! ### C8 -/

/-- C8: the close handler removes exactly the (userId, socket) pair
captured at registration: that pair is no longer present, every other
entry (other sockets of the same user and entries of other users) keeps
its exact multiplicity, and the surviving entries keep their order. -/
theorem close_removes_exactly_one_pair (clients : List ConnectedClient)
    (userId socketId : Nat) :
    ConnectedClient.mk userId socketId ∉ handleClose clients userId socketId ∧
    (∀ c : ConnectedClient, c ≠ ⟨userId, socketId⟩ →
      List.count c (handleClose clients userId socketId) = List.count c clients) ∧
    (handleClose clients userId socketId).Sublist clients := by
  refine ⟨?_, ?_, List.filter_sublist clients⟩
  · intro hmem
    rcases List.mem_filter.mp hmem with ⟨_, hpred⟩
    simp at hpred
  · intro c hne
    refine List.count_filter ?_
    have : ¬(c.userId = userId ∧ c.socketId = socketId) := by
      intro ⟨hu, hs⟩
      apply hne
      cases c
      simp_all
    simp only [Bool.not_eq_true']
    simp only [Bool.and_eq_false_iff, beq_eq_false_iff_ne, ne_eq]
    by_cases hu : c.userId = userId
    · right
      intro hs
      exact this ⟨hu, hs⟩
    · left
      exact hu

/-- Witness for C8: closing (1, 11) in the demo registry leaves the count
of user 1's other socket 12 untouched. -/
theorem close_removes_witness :
    List.count (⟨1, 12⟩ : ConnectedClient)
        (handleClose [⟨1, 11⟩, ⟨2, 10⟩, ⟨1, 12⟩] 1 11)
      = List.count (⟨1, 12⟩ : ConnectedClient) [⟨1, 11⟩, ⟨2, 10⟩, ⟨1, 12⟩] :=
  (close_removes_exactly_one_pair [⟨1, 11⟩, ⟨2, 10⟩, ⟨1, 12⟩] 1 11).2.1
    ⟨1, 12⟩ (by decide)

/-! ### C9 -/

/-- C9: the ws-token endpoint mints its token through the very same
createToken call as the login path, so for one and the same user the
socket-upgrade token carries exactly the 7-day expiry of the login token:
its lifetime is not strictly shorter. -/
theorem wsToken_expiry_not_shorter :
    (wsToken ⟨1, "u@example.com", "candidate"⟩).expiresInSeconds
      = (loginToken ⟨1, "u@example.com", "candidate"⟩).expiresInSeconds ∧
    ¬ (wsToken ⟨1, "u@example.com", "candidate"⟩).expiresInSeconds
      < (loginToken ⟨1, "u@example.com", "candidate"⟩).expiresInSeconds := by
  exact ⟨rfl, by decide⟩

/-! ### C1 -/

/-- C1: for a valid chat frame (type message, sender taken from the
authenticated connection, truthy receiverId and content) the handler calls
createMessage exactly once, as its first effect and before any socket
push, and the persisted row is the single appended row with read = false
and the current timestamp. -/
theorem relay_persists_once_before_push (st : WSState) (store : MessageStore)
    (now userId : Nat) (receiverId : Option Nat) (content : Option String)
    (hr : truthyNum receiverId = true) (hc : truthyStr content = true) :
    (handleMessage st store now userId
        (Inbound.parsed "message" receiverId content) false).1.rows
      = store.rows ++
        [{ id := store.nextId, senderId := userId,
           receiverId := receiverId.getD 0, content := content.getD "",
           read := false, createdAt := now }] ∧
    ∃ rest,
      (handleMessage st store now userId
          (Inbound.parsed "message" receiverId content) false).2
        = Effect.createMessageCall
            ⟨userId, receiverId.getD 0, content.getD ""⟩ :: rest ∧
      ∀ e ∈ rest, e.isCreateMessageCall = false ∧ e.isSend = true := by
  rw [handleMessage_valid st store now userId receiverId content hr hc]
  refine ⟨rfl, _, rfl, ?_⟩
  intro e he
  rcases List.mem_append.mp he with h | h <;>
  · rw [sendToUser_effects] at h
    rcases List.mem_map.mp h with ⟨cl, _, hce⟩
    subst hce
    exact ⟨rfl, rfl⟩

/-- Witness for C1 at a concrete send from user 1 to user 2. -/
theorem relay_persists_witness :
    (handleMessage demoState demoStore 5 1
        (Inbound.parsed "message" (some 2) (some "hi")) false).1.rows
      = demoStore.rows ++
        [{ id := demoStore.nextId, senderId := 1,
           receiverId := (some 2).getD 0, content := (some "hi").getD "",
           read := false, createdAt := 5 }] ∧
    ∃ rest,
      (handleMessage demoState demoStore 5 1
          (Inbound.parsed "message" (some 2) (some "hi")) false).2
        = Effect.createMessageCall
            ⟨1, (some 2).getD 0, (some "hi").getD ""⟩ :: rest ∧
      ∀ e ∈ rest, e.isCreateMessageCall = false ∧ e.isSend = true :=
  relay_persists_once_before_push demoState demoStore 5 1 (some 2) (some "hi")
    (by decide) (by decide)

/-! ### C5 -/

/-- Message-frame sends survive the isMessageFrame filter unchanged. -/
theorem filter_isMessageFrame_sends (l : List ConnectedClient) (m : Message) :
    (l.map (fun c => Effect.send c.socketId (OutFrame.message m))).filter
        Effect.isMessageFrame
      = l.map (fun c => Effect.send c.socketId (OutFrame.message m)) := by
  induction l with
  | nil => rfl
  | cons a t ih => simp [Effect.isMessageFrame, ih]

/-- messageSent confirmations are dropped by the isMessageFrame filter. -/
theorem filter_isMessageFrame_confirms (l : List ConnectedClient) (n : Nat) :
    (l.map (fun c => Effect.send c.socketId (OutFrame.messageSent n))).filter
        Effect.isMessageFrame = [] := by
  induction l with
  | nil => rfl
  | cons a t ih => simp [Effect.isMessageFrame, ih]

/-- C5: when the recipient has at least one OPEN registry entry at relay
time, the message-frame pushes are exactly one send per OPEN entry of the
recipient, in registry order, each carrying the identical persisted
Message returned by storage. -/
theorem relay_pushes_identical_to_open_recipient_sockets
    (st : WSState) (store : MessageStore) (now userId : Nat)
    (receiverId : Option Nat) (content : Option String)
    (hr : truthyNum receiverId = true) (hc : truthyStr content = true)
    (hlive : openClientsOf st (receiverId.getD 0) ≠ []) :
    (handleMessage st store now userId
        (Inbound.parsed "message" receiverId content) false).2.filter
        Effect.isMessageFrame
      = (openClientsOf st (receiverId.getD 0)).map
          (fun c => Effect.send c.socketId (OutFrame.message
            { id := store.nextId, senderId := userId,
              receiverId := receiverId.getD 0, content := content.getD "",
              read := false, createdAt := now })) := by
  rw [handleMessage_valid st store now userId receiverId content hr hc]
  rw [List.filter_cons]
  simp only [Effect.isMessageFrame, Bool.false_eq_true, if_false,
    List.filter_append, sendToUser_effects, filter_isMessageFrame_sends,
    filter_isMessageFrame_confirms, List.append_nil]
  rfl

/-- Witness for C5: user 2's single OPEN socket 10 receives the persisted
message. -/
theorem relay_pushes_witness :
    (handleMessage demoState demoStore 5 1
        (Inbound.parsed "message" (some 2) (some "hi")) false).2.filter
        Effect.isMessageFrame
      = (openClientsOf demoState ((some 2).getD 0)).map
          (fun c => Effect.send c.socketId (OutFrame.message
            { id := demoStore.nextId, senderId := 1,
              receiverId := (some 2).getD 0, content := (some "hi").getD "",
              read := false, createdAt := 5 })) :=
  relay_pushes_identical_to_open_recipient_sockets demoState demoStore 5 1
    (some 2) (some "hi") (by decide) (by decide) (by decide)

/-! ### C6 -/

/-- C6: when the recipient has no OPEN registry entry at relay time, the
valid frame is still persisted, no message frame is pushed to anyone, and
every OPEN socket of the sender receives the message_sent confirmation
carrying the persisted id (store.nextId). -/
theorem relay_offline_recipient (st : WSState) (store : MessageStore)
    (now userId : Nat) (receiverId : Option Nat) (content : Option String)
    (hr : truthyNum receiverId = true) (hc : truthyStr content = true)
    (hoff : openClientsOf st (receiverId.getD 0) = []) :
    (handleMessage st store now userId
        (Inbound.parsed "message" receiverId content) false).1.rows
      = store.rows ++
        [{ id := store.nextId, senderId := userId,
           receiverId := receiverId.getD 0, content := content.getD "",
           read := false, createdAt := now }] ∧
    (handleMessage st store now userId
        (Inbound.parsed "message" receiverId content) false).2.filter
        Effect.isMessageFrame = [] ∧
    ∀ c ∈ st.clients, c.userId = userId →
      st.readyState c.socketId = ReadyState.OPEN →
      Effect.send c.socketId (OutFrame.messageSent store.nextId)
        ∈ (handleMessage st store now userId
            (Inbound.parsed "message" receiverId content) false).2 := by
  rw [handleMessage_valid st store now userId receiverId content hr hc]
  refine ⟨rfl, ?_, ?_⟩
  · rw [List.filter_cons]
    simp only [Effect.isMessageFrame, Bool.false_eq_true, if_false,
      List.filter_append, sendToUser_effects, hoff, List.map_nil,
      List.filter_nil, List.nil_append, filter_isMessageFrame_confirms]
  · intro c hcm hu ho
    exact List.mem_cons_of_mem _
      (List.mem_append_right _
        (send_mem_sendToUser st userId _ c hcm hu ho))

/-- A demo manager state in which the recipient user 2 has no socket at
all: user 1 owns OPEN sockets 11 and 12. -/
def demoStateOffline : WSState :=
  { clients := [⟨1, 11⟩, ⟨1, 12⟩], readyState := fun _ => ReadyState.OPEN }

/-- Witness for C6: with user 2 offline, sender socket 11 still receives
the message_sent confirmation with the persisted id. -/
theorem relay_offline_witness :
    Effect.send 11 (OutFrame.messageSent demoStore.nextId)
      ∈ (handleMessage demoStateOffline demoStore 5 1
          (Inbound.parsed "message" (some 2) (some "hi")) false).2 :=
  (relay_offline_recipient demoStateOffline demoStore 5 1 (some 2) (some "hi")
    (by decide) (by decide) (by decide)).2.2 ⟨1, 11⟩ (by decide) rfl rfl

/-! ### C10 -/

/-- C10: when the handler's catch block fires — the inbound frame is not
valid JSON, or the persistence call for a valid frame rejects — the error
frame is pushed to every OPEN socket registered to the sending user, not
only the socket the offending frame arrived on. -/
theorem error_frame_to_every_open_sender_socket (st : WSState)
    (store : MessageStore) (now userId : Nat) (inbound : Inbound)
    (storageRejects : Bool)
    (hfail : inbound = Inbound.invalidJson ∨
      (storageRejects = true ∧ ∃ receiverId content,
        inbound = Inbound.parsed "message" receiverId content ∧
        truthyNum receiverId = true ∧ truthyStr content = true)) :
    ∀ c ∈ st.clients, c.userId = userId →
      st.readyState c.socketId = ReadyState.OPEN →
      Effect.send c.socketId (OutFrame.error "Failed to process message")
        ∈ (handleMessage st store now userId inbound storageRejects).2 := by
  intro c hcm hu ho
  rcases hfail with h | ⟨hsr, receiverId, content, hin, hr, hc⟩
  · subst h
    exact send_mem_sendToUser st userId _ c hcm hu ho
  · subst hin
    subst hsr
    rw [handleMessage_reject st store now userId receiverId content hr hc]
    exact List.mem_cons_of_mem _ (send_mem_sendToUser st userId _ c hcm hu ho)

/-- Witness for C10: a non-JSON frame from user 1 pushes the error frame
also to socket 12, user 1's other tab. -/
theorem error_frame_witness :
    Effect.send 12 (OutFrame.error "Failed to process message")
      ∈ (handleMessage demoState demoStore 5 1 Inbound.invalidJson false).2 :=
  error_frame_to_every_open_sender_socket demoState demoStore 5 1
    Inbound.invalidJson false (Or.inl rfl) ⟨1, 12⟩ (by decide) rfl rfl

/-! ### C3 -/

/-- C3 counterexample: the JSON-parseable frame { type: message } with no
receiverId, sent by user 1 whose socket 11 is OPEN in the demo registry,
is dropped with no effect at all: nothing is persisted, but also no error
frame is pushed back to the sender, contradicting the claim. -/
theorem malformed_field_frame_dropped_silently :
    handleMessage demoState demoStore 5 1
        (Inbound.parsed "message" none (some "hi")) false
      = (demoStore, []) := rfl

/-- C3 (amended): a frame that is not valid JSON is dropped without
persisting anything or closing the connection, and the error frame is
pushed to each OPEN socket of the sender; a JSON frame that fails the
type/receiverId/content guard is dropped entirely silently — nothing
persisted, no error frame, no close. -/
theorem malformed_frame_behavior (st : WSState) (store : MessageStore)
    (now userId : Nat) :
    ((handleMessage st store now userId Inbound.invalidJson false).1 = store ∧
      (∀ e ∈ (handleMessage st store now userId Inbound.invalidJson false).2,
        e.isClose = false ∧ e.isCreateMessageCall = false) ∧
      ∀ c ∈ st.clients, c.userId = userId →
        st.readyState c.socketId = ReadyState.OPEN →
        Effect.send c.socketId (OutFrame.error "Failed to process message")
          ∈ (handleMessage st store now userId Inbound.invalidJson false).2) ∧
    ∀ msgType receiverId content,
      (msgType == "message" && truthyNum receiverId && truthyStr content) = false →
      handleMessage st store now userId
          (Inbound.parsed msgType receiverId content) false
        = (store, []) := by
  refine ⟨⟨rfl, ?_, ?_⟩, ?_⟩
  · intro e he
    rw [show (handleMessage st store now userId Inbound.invalidJson false).2
        = (sendToUser st userId (OutFrame.error "Failed to process message")).2
        from rfl, sendToUser_effects] at he
    rcases List.mem_map.mp he with ⟨cl, _, hce⟩
    subst hce
    exact ⟨rfl, rfl⟩
  · intro c hcm hu ho
    exact send_mem_sendToUser st userId _ c hcm hu ho
  · intro msgType receiverId content h
    exact handleMessage_guard_false st store now userId msgType receiverId content h

/-- Witness for the amended C3: socket 11 of user 1 receives the error
frame on a non-JSON frame, and the field-incomplete frame produces no
effects. -/
theorem malformed_frame_witness :
    Effect.send 11 (OutFrame.error "Failed to process message")
      ∈ (handleMessage demoState demoStore 5 1 Inbound.invalidJson false).2 ∧
    handleMessage demoState demoStore 5 1
        (Inbound.parsed "message" (some 0) (some "x")) false
      = (demoStore, []) :=
  ⟨(malformed_frame_behavior demoState demoStore 5 1).1.2.2 ⟨1, 11⟩
      (by decide) rfl rfl,
   (malformed_frame_behavior demoState demoStore 5 1).2 "message" (some 0)
      (some "x") (by decide)⟩

/-! ### C7 -/

/-- C7: sendInvitationNotification returns true exactly when at least one
send effect (a push to an OPEN socket of the target user) happened; it can
only return true when the invitation and its linked job, company and
candidate profile were all found, so any missing or rejecting lookup
yields false — the rejection is caught, never re-raised. -/
theorem notify_true_iff_delivered (st : WSState) (db : Storage)
    (invitationId : Nat) :
    ((sendInvitationNotification st db invitationId).1 = true ↔
      ∃ e ∈ (sendInvitationNotification st db invitationId).2,
        e.isSend = true) ∧
    ((sendInvitationNotification st db invitationId).1 = true →
      ∃ inv, db.getInvitation invitationId = StorageResult.ok (some inv) ∧
        ∃ job, db.getJob inv.jobId = StorageResult.ok (some job) ∧
          ∃ co, db.getCompany job.companyId = StorageResult.ok (some co) ∧
            ∃ cp, db.getCandidateProfile inv.candidateId
              = StorageResult.ok (some cp)) := by
  cases hI : db.getInvitation invitationId with
  | err => simp [sendInvitationNotification, hI]
  | ok vI =>
    cases vI with
    | none => simp [sendInvitationNotification, hI]
    | some inv =>
      cases hJ : db.getJob inv.jobId with
      | err => simp [sendInvitationNotification, hI, hJ]
      | ok vJ =>
        cases vJ with
        | none => simp [sendInvitationNotification, hI, hJ]
        | some job =>
          cases hC : db.getCompany job.companyId with
          | err => simp [sendInvitationNotification, hI, hJ, hC]
          | ok vC =>
            cases vC with
            | none => simp [sendInvitationNotification, hI, hJ, hC]
            | some co =>
              cases hP : db.getCandidateProfile inv.candidateId with
              | err => simp [sendInvitationNotification, hI, hJ, hC, hP]
              | ok vP =>
                cases vP with
                | none => simp [sendInvitationNotification, hI, hJ, hC, hP]
                | some cp =>
                  have hres : sendInvitationNotification st db invitationId
                      = sendToUser st cp.userId
                          (OutFrame.newInvitation inv job co) := by
                    simp [sendInvitationNotification, hI, hJ, hC, hP]
                  refine ⟨?_, fun _ => ⟨inv, rfl, job, hJ, co, hC, cp, hP⟩⟩
                  rw [hres, sendToUser_sent_iff, sendToUser_effects]
                  cases hoc : openClientsOf st cp.userId with
                  | nil => simp
                  | cons a t => simp [Effect.isSend]

/-- Storage contents for the C7 witness: invitation 1 links job 4, company
6 and candidate profile 9 owned by user 2. -/
def demoDb : Storage :=
  { getInvitation := fun n =>
      if n = 1 then StorageResult.ok (some ⟨1, 4, 9⟩) else StorageResult.ok none,
    getJob := fun n =>
      if n = 4 then StorageResult.ok (some ⟨4, 6⟩) else StorageResult.ok none,
    getCompany := fun n =>
      if n = 6 then StorageResult.ok (some ⟨6⟩) else StorageResult.ok none,
    getCandidateProfile := fun n =>
      if n = 9 then StorageResult.ok (some ⟨9, 2⟩) else StorageResult.ok none }

/-- Witness for C7: the demo notification returns true and indeed some
send effect happened (user 2's OPEN socket 10). -/
theorem notify_witness :
    ∃ e ∈ (sendInvitationNotification demoState demoDb 1).2, e.isSend = true :=
  (notify_true_iff_delivered demoState demoDb 1).1.mp (by decide)

end InternshipCompany
